import Mathlib

/-!
Verification of the engagement scheduling / execution / locking / reaper core of
the B2B-Pulse backend (`app/workers/engagement_tasks.py`,
`app/workers/stale_actions.py`, `app/core/locks.py`).

The Python code is shallowly embedded: database rows become Lean structures,
timestamps become integers (seconds), the Celery task-queue and the platform
adapters become explicit oracle inputs, and each worker function becomes a pure
Lean function from its inputs to the database / queue effects it produces.
-/

namespace B2BPulse

/-! ## Data model (`app/models/engagement.py`) -/

/-- `ActionType` enum: `LIKE = "like"`, `COMMENT = "comment"`. -/
inductive ActionType
  | like
  | comment
  deriving DecidableEq, Repr

/-- The string `.value` of an `ActionType` member. -/
def ActionType.value : ActionType → String
  | .like => "like"
  | .comment => "comment"

/-- `ActionStatus` enum: `PENDING / IN_PROGRESS / COMPLETED / FAILED`. -/
inductive ActionStatus
  | pending
  | in_progress
  | completed
  | failed
  deriving DecidableEq, Repr

/-- The string `.value` of an `ActionStatus` member. -/
def ActionStatus.value : ActionStatus → String
  | .pending => "pending"
  | .in_progress => "in_progress"
  | .completed => "completed"
  | .failed => "failed"

/-- One row of the `engagement_actions` table.  UUID columns are modelled as
`Nat` identifiers and timezone-aware datetimes as `Int` epoch seconds; the
`llm_response` JSON blob is modelled as an opaque string. -/
structure EngagementAction where
  id : Nat
  post_id : Nat
  user_id : Nat
  action_type : ActionType
  status : ActionStatus
  comment_text : Option String := none
  llm_response : Option String := none
  attempted_at : Option Int := none
  completed_at : Option Int := none
  error_message : Option String := none
  retry_count : Nat := 0
  last_retry_at : Option Int := none
  created_at : Int := 0
  deriving DecidableEq, Repr

/-! ## String helpers

Python's `str.lower()` and the `needle in haystack` substring test, used by
`is_permanent_failure` in `app/workers/stale_actions.py`. -/

/-- ASCII lowering, the part of `str.lower()` the failure patterns exercise. -/
def lowerStr (s : String) : String :=
  String.mk (s.toList.map Char.toLower)

/-- Python's `needle in hay` substring containment. -/
def containsSub (hay needle : String) : Bool :=
  (List.range (hay.toList.length + 1)).any fun i =>
    needle.toList.isPrefixOf (hay.toList.drop i)

/-! ## Stale-action reaper (`app/workers/stale_actions.py`) -/

def PENDING_STALE_MINUTES : Nat := 30
def IN_PROGRESS_STALE_MINUTES : Nat := 10
def MAX_RETRIES : Nat := 3

/-- `RETRY_DELAYS.get(k, RETRY_DELAYS[3])`: the backoff table
`{1: 5*60, 2: 10*60, 3: 15*60}` with the 15-minute entry as default. -/
def RETRY_DELAYS (k : Nat) : Nat :=
  if k = 1 then 5 * 60 else if k = 2 then 10 * 60 else if k = 3 then 15 * 60 else 15 * 60

/-- `PERMANENT_FAILURE_PATTERNS` from `stale_actions.py`. -/
def PERMANENT_FAILURE_PATTERNS : List String :=
  ["button not found",
   "comment box not found",
   "already liked",
   "not found",
   "could not be completed",
   "Like button not found",
   "Comment box not found"]

/-- `is_permanent_failure(error_message)`: `None` (and hence also the empty
string, on which every pattern test fails) is not permanent; otherwise a
case-insensitive substring match against the fixed pattern list. -/
def is_permanent_failure : Option String → Bool
  | none => false
  | some msg =>
      let error_lower := lowerStr msg
      PERMANENT_FAILURE_PATTERNS.any fun p => containsSub error_lower (lowerStr p)

/-- `now - timedelta(minutes=PENDING_STALE_MINUTES)`. -/
def pendingCutoff (now : Int) : Int := now - PENDING_STALE_MINUTES * 60

/-- `now - timedelta(minutes=IN_PROGRESS_STALE_MINUTES)`. -/
def inProgressCutoff (now : Int) : Int := now - IN_PROGRESS_STALE_MINUTES * 60

/-- Pass-1 filter: `status == PENDING AND attempted_at IS NULL AND
created_at < pending_cutoff`. -/
def isStalePending (now : Int) (a : EngagementAction) : Bool :=
  decide (a.status = .pending) && decide (a.attempted_at = none)
    && decide (a.created_at < pendingCutoff now)

/-- The `attempted_at < in_progress_cutoff` comparison; NULL selects nothing. -/
def staleAttempt (now : Int) : Option Int → Bool
  | some t => decide (t < inProgressCutoff now)
  | none => false

/-- Pass-2 filter: `status == IN_PROGRESS AND attempted_at < in_progress_cutoff`
(a SQL comparison against NULL selects nothing). -/
def isStaleInProgress (now : Int) (a : EngagementAction) : Bool :=
  decide (a.status = .in_progress) && staleAttempt now a.attempted_at

/-- The synthetic error message written by pass 2. -/
def timedOutMessage : String := "Timed out — worker may have crashed during execution"

/-- Pass 2 applied to one row: force a stale IN_PROGRESS action to FAILED,
increment `retry_count`, stamp `last_retry_at = now`. -/
def failStale (now : Int) (a : EngagementAction) : EngagementAction :=
  if isStaleInProgress now a then
    { a with status := .failed,
             error_message := some timedOutMessage,
             retry_count := a.retry_count + 1,
             last_retry_at := some now }
  else a

/-- The backoff gate: skip unless `now ≥ last_retry_at +
RETRY_DELAYS[retry_count+1]`; a NULL `last_retry_at` skips the check. -/
def backoffOpen (now : Int) (rc : Nat) : Option Int → Bool
  | some t => decide (t + (RETRY_DELAYS (rc + 1) : Int) ≤ now)
  | none => true

/-- Pass-3 guard: the query filter (`status == FAILED AND retry_count <
MAX_RETRIES`) together with the in-loop skips (permanent failure; backoff
window `now < last_retry_at + RETRY_DELAYS[retry_count+1]` not yet elapsed —
the elapsed-time check runs only when `last_retry_at` is set). -/
def retryEligible (now : Int) (a : EngagementAction) : Bool :=
  decide (a.status = .failed) && decide (a.retry_count < MAX_RETRIES)
    && !(is_permanent_failure a.error_message)
    && backoffOpen now a.retry_count a.last_retry_at

/-- Pass 3 applied to one row: re-queue an eligible FAILED action — back to
PENDING, clear `attempted_at` / `error_message`, and enqueue the executor with
a countdown of `RETRY_DELAYS[retry_count+1]` (`retry_count` itself is left
unchanged by this pass). -/
def retryStep (now : Int) (a : EngagementAction) : EngagementAction × Option (Nat × Nat) :=
  if retryEligible now a then
    ({ a with status := .pending, attempted_at := none, error_message := none },
     some (a.id, RETRY_DELAYS (a.retry_count + 1)))
  else (a, none)

/-- The observable outcome of one `cleanup_stale_actions` run: the table after
commit, and the `(action id, countdown)` pairs handed to the task queue. -/
structure CleanupResult where
  actions : List EngagementAction
  enqueued : List (Nat × Nat)
  deriving DecidableEq, Repr

/-- `_cleanup()`: pass 1 re-enqueues stale never-attempted PENDING rows with no
countdown; pass 2 forces stale IN_PROGRESS rows to FAILED; pass 3 (whose query
runs after pass 2's mutations are flushed) retries eligible FAILED rows with
backoff.  All mutations commit together at the end. -/
def cleanup (now : Int) (actions : List EngagementAction) : CleanupResult where
  actions := ((actions.map (failStale now)).map (retryStep now)).map Prod.fst
  enqueued :=
    ((actions.filter (isStalePending now)).map fun a => (a.id, 0))
      ++ ((actions.map (failStale now)).map (retryStep now)).filterMap Prod.snd

/-! ## Executor (`app/workers/engagement_tasks.py`, `execute_engagement` /
`_execute_engagement`)

The platform adapters (`_execute_like`, `_execute_comment`), the comment
generator and token refresh are external collaborators; their outcomes enter
the model as oracle inputs.  A raised Python exception is a value carrying its
class and its `str(e)` message. -/

/-- The exception classes the outer retry boundary distinguishes
(`httpx.TimeoutException`, `httpx.ConnectError`, `SoftTimeLimitExceeded`,
anything else). -/
inductive ExcClass
  | timeout
  | connectError
  | softTimeLimit
  | otherExc
  deriving DecidableEq, Repr

/-- A raised exception: its class and its `str(e)` rendering. -/
structure AdapterExc where
  cls : ExcClass
  msg : String
  deriving DecidableEq, Repr

/-- Oracle outcomes of the external calls made inside the dispatch block:
the like adapter, `generate_and_review_comment` (returning the comment text and
the `llm_data` blob), and the comment-posting adapter. -/
structure ExecInputs where
  likeOutcome : Except AdapterExc Unit
  genOutcome : Except AdapterExc (String × String)
  postCommentOutcome : Except AdapterExc Unit

/-- The columns of the `posts` row the executor reads. -/
structure PostInfo where
  id : Nat
  url : String
  deriving DecidableEq, Repr

/-- The columns of the `users` row the executor reads. -/
structure UserInfo where
  id : Nat
  org_id : Nat
  deriving DecidableEq, Repr

/-- One `AuditLog` row as written by `_execute_engagement`. -/
structure AuditEntry where
  org_id : Nat
  user_id : Nat
  action : String
  target_type : String
  target_id : Nat
  meta_post_url : String
  meta_action_type : String
  meta_comment_text : Option String
  deriving DecidableEq, Repr

/-- What one `_execute_engagement` run leaves behind: the action row after the
final commit (`none` when the id did not resolve) and the audit rows written. -/
structure ExecuteResult where
  action : Option EngagementAction
  audits : List AuditEntry
  deriving DecidableEq, Repr

/-- The `try: ... except Exception as e:` dispatch block of
`_execute_engagement`, applied to the IN_PROGRESS row: LIKE calls the like
adapter, success ⇒ COMPLETED with `completed_at = now`; COMMENT first calls
`generate_and_review_comment` (assigning `comment_text` / `llm_response` as
soon as generation succeeds, so they survive a posting failure) and then the
comment adapter.  Any exception is caught here — whatever its class — and
recorded as FAILED with `error_message = str(e)`. -/
def dispatchAction (now : Int) (inputs : ExecInputs)
    (action1 : EngagementAction) : EngagementAction :=
  match action1.action_type with
  | .like =>
    match inputs.likeOutcome with
    | .ok _ => { action1 with status := .completed, completed_at := some now }
    | .error e => { action1 with status := .failed, error_message := some e.msg }
  | .comment =>
    match inputs.genOutcome with
    | .error e => { action1 with status := .failed, error_message := some e.msg }
    | .ok (text, llm) =>
      let a := { action1 with comment_text := some text, llm_response := some llm }
      match inputs.postCommentOutcome with
      | .ok _ => { a with status := .completed, completed_at := some now }
      | .error e => { a with status := .failed, error_message := some e.msg }

/-- The `AuditLog` row `_execute_engagement` writes from the final state of
the action: `action = f"{action_type.value}_{status.value}"`, target the post,
metadata carrying the post URL, the kind and the comment text if any. -/
def mkAudit (user : UserInfo) (post : PostInfo) (a2 : EngagementAction) : AuditEntry :=
  { org_id := user.org_id,
    user_id := user.id,
    action := a2.action_type.value ++ "_" ++ a2.status.value,
    target_type := "post",
    target_id := post.id,
    meta_post_url := post.url,
    meta_action_type := a2.action_type.value,
    meta_comment_text := a2.comment_text }

/-- `_execute_engagement(engagement_action_id)`, the under-the-lock body.

Missing action: log and return.  Status ≠ PENDING: duplicate delivery, return
with nothing written.  Otherwise: PENDING → IN_PROGRESS with `attempted_at =
now` (committed), then the dispatch block, and — only on this executed path —
a single audit row, written after the dispatch and committed with it. -/
def execute_engagement_inner (now : Int) (inputs : ExecInputs)
    (post : PostInfo) (user : UserInfo) :
    Option EngagementAction → ExecuteResult
  | none => ⟨none, []⟩
  | some action =>
    if action.status ≠ ActionStatus.pending then ⟨some action, []⟩
    else
      let action2 := dispatchAction now inputs
        { action with status := ActionStatus.in_progress, attempted_at := some now }
      ⟨some action2, [mkAudit user post action2]⟩

/-- The observable outcome of the outer Celery task `execute_engagement`. -/
inductive TaskOutcome
  | notFound
  | retryScheduled (countdown : Nat)
  | completedRun (r : ExecuteResult)
  | raisedRetriable (e : AdapterExc) (r : ExecuteResult)
  | raisedFatal (e : AdapterExc) (r : ExecuteResult)
  deriving DecidableEq, Repr

/-- `execute_engagement(self, engagement_action_id)`: pre-lock metadata lookup
(missing action or post → plain return), non-blocking user-lock acquisition
(busy → `self.retry(countdown=30)`, no state touched), then the inner body.

The outer `except (httpx.TimeoutException, httpx.ConnectError,
SoftTimeLimitExceeded)` / `except Exception` clauses would map an exception
escaping the inner body to `raisedRetriable` / `raisedFatal`; but the inner
body's own blanket `except Exception` around the dispatch block records every
adapter exception on the row instead of letting it escape, so the run ends in
`completedRun` for every adapter outcome. -/
def execute_engagement (lockAcquired : Bool) (now : Int) (inputs : ExecInputs)
    (post : PostInfo) (user : UserInfo) (action0 : Option EngagementAction) :
    TaskOutcome :=
  match action0 with
  | none => .notFound
  | some a =>
    if !lockAcquired then .retryScheduled 30
    else .completedRun (execute_engagement_inner now inputs post user (some a))

/-! ## Quiet hours (`_quiet_hours_offset` in `engagement_tasks.py`) -/

/-- The Python slice `s[a:b]`. -/
def sliceStr (s : String) (a b : Nat) : String :=
  String.mk ((s.toList.drop a).take (b - a))

/-- Accumulator loop for decimal parsing. -/
def parseDigits : List Char → Nat → Option Nat
  | [], acc => some acc
  | c :: rest, acc =>
    if c.isDigit then parseDigits rest (acc * 10 + (c.toNat - 48)) else none

/-- Python's `int(s)` on the sliced window: digits-only (a sign, inner
whitespace or any other character raises `ValueError`, modelled as `none`;
so does the empty slice). -/
def strToNat (s : String) : Option Nat :=
  match s.toList with
  | [] => none
  | cs => parseDigits cs 0

/-- The `int(s[:2])` / `int(s[3:5])` parse of an `"HH:MM"` string; `none` when
Python's `int()` would raise `ValueError` (and the caller returns 0). -/
def parseHM (s : String) : Option (Nat × Nat) :=
  match strToNat (sliceStr s 0 2), strToNat (sliceStr s 3 5) with
  | some h, some m => some (h, m)
  | _, _ => none

/-- The arithmetic core of `_quiet_hours_offset`, on minutes-of-day: decide
membership in the `[start, end)` window (wrapping midnight when
`start_minutes > end_minutes`), then seconds until the window ends. -/
def quietCore (current startM endM : Nat) : Nat :=
  let inQuiet :=
    if startM > endM then current ≥ startM ∨ current < endM
    else startM ≤ current ∧ current < endM
  if inQuiet then
    if current < endM then (endM - current) * 60
    else ((24 * 60 - current) + endM) * 60
  else 0

/-- `_quiet_hours_offset(now, start_str, end_str)`: seconds until quiet hours
end, or 0 if outside the window or the window strings do not parse. -/
def quiet_hours_offset (hour minute : Nat) (start_str end_str : String) : Nat :=
  match parseHM start_str, parseHM end_str with
  | some (sh, sm), some (eh, em) =>
      quietCore (hour * 60 + minute) (sh * 60 + sm) (eh * 60 + em)
  | _, _ => 0

/-! ## Scheduler (`_schedule_engagements` in `engagement_tasks.py`) -/

/-- The `automation_settings` JSON dict of a `UserProfile` row; `none` fields
are missing keys (each read through `.get(key, default)`). -/
structure AutomationSettings where
  risk_profile : Option String := none
  quiet_hours_enabled : Option Bool := none
  quiet_hours_start : Option String := none
  quiet_hours_end : Option String := none
  deriving DecidableEq, Repr

/-- One `TrackedPageSubscription` row for the page being scheduled. -/
structure Subscription where
  user_id : Nat
  auto_like : Bool
  auto_comment : Bool
  deriving DecidableEq, Repr

/-- The scheduler's read-only environment: per-user settings lookup
(`none` models a missing profile or a missing/empty `automation_settings`
dict, i.e. `(profile.automation_settings if profile else None) or {}`),
today's per-user action counts by kind (a per-user snapshot of the two
`COUNT(*) ... WHERE created_at >= today_start` queries — subscriptions of one
page hit each user at most once), and the values drawn by `random.randint` for
the like and comment delays at each subscriber index. -/
structure SchedEnv where
  settingsOf : Nat → Option AutomationSettings
  todayLikes : Nat → Nat
  todayComments : Nat → Nat
  likeDraw : Nat → Nat
  commentDraw : Nat → Nat

/-- The scheduler's clock: local hour / minute (for quiet hours) and
`datetime.weekday()` (Monday = 0; `is_weekend` is `weekday >= 5`). -/
structure NowClock where
  hour : Nat
  minute : Nat
  weekday : Nat
  deriving DecidableEq, Repr

/-- A freshly created `EngagementAction(post_id, user_id, action_type,
status=PENDING)` row, identified by its payload (the DB assigns the UUID). -/
structure CreatedRecord where
  post_id : Nat
  user_id : Nat
  action_type : ActionType
  deriving DecidableEq, Repr

/-- `auto_settings.get("risk_profile", "safe")` for a user. -/
def riskOf (env : SchedEnv) (u : Nat) : String :=
  ((env.settingsOf u).getD {}).risk_profile.getD "safe"

/-- The quiet-hours offset the scheduler computes for a user:
`auto_settings.get("quiet_hours_enabled", True)` gates a call to
`_quiet_hours_offset` with window keys defaulted to `"22:00"` / `"07:00"`. -/
def quietOffsetFor (env : SchedEnv) (now : NowClock) (u : Nat) : Nat :=
  let s := (env.settingsOf u).getD {}
  if s.quiet_hours_enabled.getD true then
    quiet_hours_offset now.hour now.minute
      (s.quiet_hours_start.getD "22:00") (s.quiet_hours_end.getD "07:00")
  else 0

/-- The loop body of `_schedule_engagements` for subscriber `sub` at index `i`:
cap-gated creation of a PENDING like and/or comment record, each enqueued with
its staggered delay plus the quiet-hours offset.  Stagger: likes
`randint(1,2)*(i+1)` (aggro) or `randint(LIKE_STAGGER_MIN=1, LIKE_STAGGER_MAX=5)
*(i+1)` doubled on weekends (safe); comments `randint(15,60)+i*15` (aggro) or
`randint(COMMENT_STAGGER_MIN=60, COMMENT_STAGGER_MAX=300) +
i*COMMENT_INTER_USER_DELAY=60` doubled on weekends (safe). -/
def scheduleOne (env : SchedEnv) (now : NowClock) (post_id : Nat) (i : Nat)
    (sub : Subscription) : List CreatedRecord × List (CreatedRecord × Nat) :=
  let risk := riskOf env sub.user_id
  let quiet_offset := quietOffsetFor env now sub.user_id
  let like_cap := if risk == "aggro" then 150 else 50
  let comment_cap := if risk == "aggro" then 60 else 20
  let is_weekend := 5 ≤ now.weekday
  let likes :=
    if sub.auto_like && decide (env.todayLikes sub.user_id < like_cap) then
      let r : CreatedRecord := ⟨post_id, sub.user_id, .like⟩
      let delay :=
        if risk == "aggro" then env.likeDraw i * (i + 1)
        else
          let d := env.likeDraw i * (i + 1)
          if is_weekend then d * 2 else d
      [(r, delay + quiet_offset)]
    else []
  let comments :=
    if sub.auto_comment && decide (env.todayComments sub.user_id < comment_cap) then
      let r : CreatedRecord := ⟨post_id, sub.user_id, .comment⟩
      let delay :=
        if risk == "aggro" then env.commentDraw i + i * 15
        else
          let d := env.commentDraw i + i * 60
          if is_weekend then d * 2 else d
      [(r, delay + quiet_offset)]
    else []
  (likes.map Prod.fst ++ comments.map Prod.fst, likes ++ comments)

/-- The `for i, sub in enumerate(subscriptions)` loop from index `i0`. -/
def scheduleFrom (env : SchedEnv) (now : NowClock) (post_id : Nat) :
    Nat → List Subscription → List CreatedRecord × List (CreatedRecord × Nat)
  | _, [] => ([], [])
  | i, sub :: rest =>
    let here := scheduleOne env now post_id i sub
    let later := scheduleFrom env now post_id (i + 1) rest
    (here.1 ++ later.1, here.2 ++ later.2)

/-- `_schedule_engagements(post_id, tracked_page_id)`: the records created and
the `(record, countdown)` pairs enqueued over the whole subscriber list. -/
def schedule_engagements (env : SchedEnv) (now : NowClock) (post_id : Nat)
    (subs : List Subscription) : List CreatedRecord × List (CreatedRecord × Nat) :=
  scheduleFrom env now post_id 0 subs

/-- Daily cap per kind from the risk profile (`aggro` → 150 likes / 60
comments, otherwise 50 / 20). -/
def dailyCap (env : SchedEnv) (u : Nat) : ActionType → Nat
  | .like => if riskOf env u == "aggro" then 150 else 50
  | .comment => if riskOf env u == "aggro" then 60 else 20

/-- Today's usage count per kind. -/
def todayCount (env : SchedEnv) (u : Nat) : ActionType → Nat
  | .like => env.todayLikes u
  | .comment => env.todayComments u

/-! ## Distributed user lock (`app/core/locks.py`)

The Redis store is an association list from keys to stored owner tokens; TTL
expiry is an external event that removes the entry. -/

def LOCK_PREFIX : String := "autoengage:user_lock:"
def LOCK_TTL : Nat := 120

/-- The key→value view of the store (`GET key`). -/
def storeGet (st : List (String × String)) (k : String) : Option String :=
  (st.find? fun p => p.1 == k).map fun p => p.2

/-- `DEL key`. -/
def storeDel (st : List (String × String)) (k : String) : List (String × String) :=
  st.filter fun p => p.1 != k

/-- `SET key value NX EX ttl`: set only if absent, report success. -/
def storeSetNX (st : List (String × String)) (k v : String) :
    List (String × String) × Bool :=
  if (storeGet st k).isSome then (st, false) else ((k, v) :: st, true)

/-- The in-process `UserLock` object: its Redis key
`f"{LOCK_PREFIX}{action}:{user_id}"`, its random owner token `_lock_id`, and
the `_acquired` flag. -/
structure UserLock where
  lock_key : String
  lock_id : String
  acquired : Bool := false
  deriving DecidableEq, Repr

/-- `UserLock(user_id, action)` with a given fresh owner token. -/
def UserLock.mk' (user_id action lock_id : String) : UserLock :=
  { lock_key := LOCK_PREFIX ++ action ++ ":" ++ user_id,
    lock_id := lock_id }

/-- `_try_acquire`: SETNX with TTL; on success mark `_acquired`. -/
def UserLock.tryAcquire (l : UserLock) (st : List (String × String)) :
    UserLock × List (String × String) × Bool :=
  let (st', ok) := storeSetNX st l.lock_key l.lock_id
  (if ok then { l with acquired := true } else l, st', ok)

/-- `release`: a never-acquired lock returns `False` untouched; otherwise the
atomic Lua compare-and-delete runs — delete and return `True` only when the
stored value still equals our token (`_acquired` is then reassigned to
`not bool(result)`). -/
def UserLock.release (l : UserLock) (st : List (String × String)) :
    UserLock × List (String × String) × Bool :=
  if !l.acquired then (l, st, false)
  else
    match storeGet st l.lock_key with
    | some v =>
      if v == l.lock_id then
        ({ l with acquired := false }, storeDel st l.lock_key, true)
      else (l, st, false)
    | none => (l, st, false)

/-! ## Helper lemmas for the reaper -/

theorem failStale_id (now : Int) (a : EngagementAction) : (failStale now a).id = a.id := by
  unfold failStale
  split <;> rfl

theorem failStale_of_not_in_progress (now : Int) (a : EngagementAction)
    (h : a.status ≠ .in_progress) : failStale now a = a := by
  unfold failStale
  have : isStaleInProgress now a = false := by
    unfold isStaleInProgress
    simp [h]
  simp [this]

theorem retryEligible_of_not_failed (now : Int) (a : EngagementAction)
    (h : a.status ≠ .failed) : retryEligible now a = false := by
  unfold retryEligible
  simp [h]

theorem retryStep_of_not_eligible (now : Int) (a : EngagementAction)
    (h : retryEligible now a = false) : retryStep now a = (a, none) := by
  unfold retryStep
  simp [h]

theorem retryStep_snd_some (now : Int) (a : EngagementAction) (p : Nat × Nat)
    (h : (retryStep now a).2 = some p) :
    retryEligible now a = true ∧ p.1 = a.id := by
  unfold retryStep at h
  by_cases he : retryEligible now a = true
  · simp [he] at h
    exact ⟨he, by rw [← h]⟩
  · simp [he] at h

theorem RETRY_DELAYS_pos (k : Nat) : 0 < RETRY_DELAYS k := by
  unfold RETRY_DELAYS
  split_ifs <;> norm_num

theorem timedOutMessage_not_permanent :
    is_permanent_failure (some timedOutMessage) = false := by decide

theorem mem_cleanup_actions (now : Int) (actions : List EngagementAction)
    (a : EngagementAction) (ha : a ∈ actions) :
    (retryStep now (failStale now a)).1 ∈ (cleanup now actions).actions := by
  unfold cleanup
  simp only [List.map_map]
  exact List.mem_map.mpr ⟨a, ha, rfl⟩

/-! ## Claims C3, C6, C9 — the reaper -/

/-- `p` is not an enqueue entry for action id `i`. -/
def notForId (i : Nat) (p : Nat × Nat) : Bool := p.1 != i

/-- C3: a FAILED engagement action whose `retry_count` has reached
`MAX_RETRIES` (3), or whose `error_message` matches a permanent-failure
pattern, survives `_cleanup` unchanged and is never re-enqueued, for every
cleanup time `now`.  `hid` is the table's primary-key uniqueness. -/
theorem C3_budget_or_permanent_never_requeued (now : Int)
    (actions : List EngagementAction) (a : EngagementAction)
    (ha : a ∈ actions) (hf : a.status = .failed)
    (hstop : MAX_RETRIES ≤ a.retry_count ∨ is_permanent_failure a.error_message = true)
    (hid : ∀ b ∈ actions, b.id = a.id → b = a) :
    a ∈ (cleanup now actions).actions ∧
    ((cleanup now actions).enqueued.all (notForId a.id)) = true := by
  have hfs : failStale now a = a :=
    failStale_of_not_in_progress now a (by simp [hf])
  have hre : retryEligible now a = false := by
    unfold retryEligible
    rcases hstop with h | h
    · have h2 : ¬ (a.retry_count < MAX_RETRIES) := by omega
      simp [h2]
    · simp [h]
  refine ⟨?_, ?_⟩
  · simpa [hfs, retryStep_of_not_eligible now a hre]
      using mem_cleanup_actions now actions a ha
  · rw [List.all_eq_true]
    intro p hp
    simp only [cleanup, List.map_map, List.mem_append] at hp
    rcases hp with hp | hp
    · rcases List.mem_map.mp hp with ⟨b, hb, hpb⟩
      rcases List.mem_filter.mp hb with ⟨hbmem, hbstale⟩
      unfold notForId
      rw [bne_iff_ne]
      intro hpid
      have hbid : b.id = a.id := by rw [← hpb] at hpid; exact hpid
      have hba : b = a := hid b hbmem hbid
      rw [hba] at hbstale
      unfold isStalePending at hbstale
      simp [hf] at hbstale
    · rcases List.mem_filterMap.mp hp with ⟨q, hq, hq2⟩
      rcases List.mem_map.mp hq with ⟨b, hbmem, hqb⟩
      rw [← hqb] at hq2
      rcases retryStep_snd_some now (failStale now b) p hq2 with ⟨helig, hpid⟩
      rw [failStale_id] at hpid
      unfold notForId
      rw [bne_iff_ne]
      intro hpa
      have hbid : b.id = a.id := by rw [← hpid]; exact hpa
      have hba : b = a := hid b hbmem hbid
      rw [hba, hfs, hre] at helig
      cases helig

/-- C3 witness: a FAILED action with an exhausted retry budget, long after any
backoff window, is kept as-is and nothing is enqueued. -/
def c3Action : EngagementAction :=
  { id := 11, post_id := 1, user_id := 1, action_type := .like, status := .failed,
    error_message := some "Something broke", retry_count := 3, last_retry_at := some 0 }

theorem C3_witness :
    c3Action ∈ (cleanup 100000 [c3Action]).actions ∧
    ((cleanup 100000 [c3Action]).enqueued.all (notForId c3Action.id)) = true :=
  C3_budget_or_permanent_never_requeued 100000 [c3Action] c3Action (by decide) (by decide)
    (Or.inl (by decide)) (by decide)

/-- C6: an IN_PROGRESS action whose `attempted_at` is older than
`IN_PROGRESS_STALE_MINUTES` (10) at cleanup time is forced to FAILED with the
synthetic timed-out message, `retry_count` incremented by exactly 1 and
`last_retry_at = now` (pass 3 then leaves it alone, its backoff window having
just opened); an IN_PROGRESS action attempted within the window is unchanged. -/
theorem C6_stale_in_progress_forced_failed (now t : Int)
    (actions : List EngagementAction) (a : EngagementAction)
    (ha : a ∈ actions) (hst : a.status = .in_progress)
    (hat : a.attempted_at = some t) :
    (t < inProgressCutoff now →
      { a with status := .failed, error_message := some timedOutMessage,
               retry_count := a.retry_count + 1, last_retry_at := some now }
        ∈ (cleanup now actions).actions) ∧
    (inProgressCutoff now ≤ t → a ∈ (cleanup now actions).actions) := by
  constructor
  · intro hstale
    have hsp : isStaleInProgress now a = true := by
      unfold isStaleInProgress
      rw [hat]
      simp [staleAttempt, hst, hstale]
    have hfs : failStale now a =
        { a with status := .failed, error_message := some timedOutMessage,
                 retry_count := a.retry_count + 1, last_retry_at := some now } := by
      unfold failStale
      rw [hsp]
      simp
    have hre : retryEligible now
        { a with status := .failed, error_message := some timedOutMessage,
                 retry_count := a.retry_count + 1, last_retry_at := some now } = false := by
      have hb : backoffOpen now (a.retry_count + 1) (some now) = false := by
        have hpos := RETRY_DELAYS_pos (a.retry_count + 1 + 1)
        unfold backoffOpen
        rw [decide_eq_false_iff_not]
        omega
      simp [retryEligible, hb]
    have hmem := mem_cleanup_actions now actions a ha
    rw [hfs, retryStep_of_not_eligible now _ hre] at hmem
    exact hmem
  · intro hfresh
    have hsp : isStaleInProgress now a = false := by
      unfold isStaleInProgress
      rw [hat]
      have hb : staleAttempt now (some t) = false := by
        unfold staleAttempt
        rw [decide_eq_false_iff_not]
        omega
      rw [hb, Bool.and_false]
    have hfs : failStale now a = a := by
      unfold failStale
      simp [hsp]
    have hre : retryEligible now a = false :=
      retryEligible_of_not_failed now a (by simp [hst])
    simpa [hfs, retryStep_of_not_eligible now a hre]
      using mem_cleanup_actions now actions a ha

/-- C6 witness: attempted at t = 100 and cleaned at now = 10000 (cutoff 9400),
the action is forced to FAILED with `retry_count` bumped from 1 to 2. -/
def c6Action : EngagementAction :=
  { id := 21, post_id := 2, user_id := 5, action_type := .comment, status := .in_progress,
    attempted_at := some 100, retry_count := 1 }

theorem C6_witness :
    { c6Action with status := .failed, error_message := some timedOutMessage,
                    retry_count := c6Action.retry_count + 1, last_retry_at := some 10000 }
      ∈ (cleanup 10000 [c6Action]).actions :=
  (C6_stale_in_progress_forced_failed 10000 100 [c6Action] c6Action
    (by decide) (by decide) (by decide)).1 (by decide)

/-- C9: a FAILED action with retry budget left, a non-permanent error and
`last_retry_at` still NULL (the state an executor-side first-attempt failure
leaves behind, since the executor sets neither `retry_count` nor
`last_retry_at`) is re-queued by the very next `_cleanup` run — back to
PENDING with `attempted_at` and `error_message` cleared, enqueued with
countdown `RETRY_DELAYS[retry_count + 1]` — at every `now`, because the
backoff elapsed-time check runs only when `last_retry_at` is set. -/
theorem C9_null_last_retry_requeued_immediately (now : Int)
    (actions : List EngagementAction) (a : EngagementAction)
    (ha : a ∈ actions) (hf : a.status = .failed)
    (hrc : a.retry_count < MAX_RETRIES)
    (hperm : is_permanent_failure a.error_message = false)
    (hlr : a.last_retry_at = none) :
    { a with status := .pending, attempted_at := none, error_message := none }
        ∈ (cleanup now actions).actions ∧
    (a.id, RETRY_DELAYS (a.retry_count + 1)) ∈ (cleanup now actions).enqueued := by
  have hfs : failStale now a = a :=
    failStale_of_not_in_progress now a (by simp [hf])
  have hre : retryEligible now a = true := by
    unfold retryEligible
    rw [hlr]
    simp [hf, hrc, hperm, backoffOpen]
  have hrs : retryStep now a =
      ({ a with status := .pending, attempted_at := none, error_message := none },
       some (a.id, RETRY_DELAYS (a.retry_count + 1))) := by
    unfold retryStep
    rw [hre]
    simp
  constructor
  · have hmem := mem_cleanup_actions now actions a ha
    rw [hfs, hrs] at hmem
    exact hmem
  · simp only [cleanup, List.map_map, List.mem_append]
    right
    refine List.mem_filterMap.mpr ⟨retryStep now (failStale now a), ?_, ?_⟩
    · exact List.mem_map.mpr ⟨a, ha, rfl⟩
    · rw [hfs, hrs]

/-- C9 witness: a first-attempt executor failure (retry_count 0, no
last_retry_at) is re-queued on the next pass with the 5-minute countdown. -/
def c9Action : EngagementAction :=
  { id := 31, post_id := 3, user_id := 8, action_type := .like, status := .failed,
    error_message := some "LinkedIn API reaction failed for post", retry_count := 0 }

theorem C9_witness :
    { c9Action with status := .pending, attempted_at := none, error_message := none }
        ∈ (cleanup 500 [c9Action]).actions ∧
    (c9Action.id, RETRY_DELAYS (c9Action.retry_count + 1)) ∈ (cleanup 500 [c9Action]).enqueued :=
  C9_null_last_retry_requeued_immediately 500 [c9Action] c9Action
    (by decide) (by decide) (by decide) (by decide) (by decide)

/-! ## Claims C1, C2, C8 — the executor -/

theorem dispatchAction_terminal (now : Int) (inputs : ExecInputs)
    (a1 : EngagementAction) :
    (dispatchAction now inputs a1).status = .completed ∨
      (dispatchAction now inputs a1).status = .failed := by
  unfold dispatchAction
  cases a1.action_type
  · cases inputs.likeOutcome <;> simp
  · cases hg : inputs.genOutcome with
    | error e => simp
    | ok p =>
      cases p
      cases inputs.postCommentOutcome <;> simp

theorem dispatchAction_attempted (now : Int) (inputs : ExecInputs)
    (a1 : EngagementAction) :
    (dispatchAction now inputs a1).attempted_at = a1.attempted_at := by
  unfold dispatchAction
  cases a1.action_type
  · cases inputs.likeOutcome <;> simp
  · cases hg : inputs.genOutcome with
    | error e => simp
    | ok p =>
      cases p
      cases inputs.postCommentOutcome <;> simp

/-- C1: under the lock, `_execute_engagement` re-loads the action and, when
its status is anything but PENDING (a duplicate delivery from the
at-least-once queue, or an already-terminal record), returns with the record
untouched and nothing written; only an exactly-PENDING record takes the
PENDING → IN_PROGRESS transition, stamping `attempted_at = now`, after which
the run ends in a terminal COMPLETED or FAILED status — so a single action
only ever moves along PENDING → IN_PROGRESS → {COMPLETED, FAILED}. -/
theorem C1_pending_guard (now : Int) (inputs : ExecInputs) (post : PostInfo)
    (user : UserInfo) (a : EngagementAction) :
    (a.status ≠ .pending →
      execute_engagement_inner now inputs post user (some a) = ⟨some a, []⟩) ∧
    (a.status = .pending →
      ∃ a', (execute_engagement_inner now inputs post user (some a)).action = some a' ∧
        a'.attempted_at = some now ∧
        (a'.status = .completed ∨ a'.status = .failed)) := by
  constructor
  · intro h
    simp [execute_engagement_inner, h]
  · intro h
    refine ⟨dispatchAction now inputs
      { a with status := ActionStatus.in_progress, attempted_at := some now },
      ?_, ?_, dispatchAction_terminal now inputs _⟩
    · simp [execute_engagement_inner, h]
    · rw [dispatchAction_attempted]

/-- C1 witness: a COMPLETED record re-delivered to the executor is a no-op. -/
def c1Dup : EngagementAction :=
  { id := 3, post_id := 1, user_id := 4, action_type := .comment, status := .completed }

def c1Inputs : ExecInputs :=
  { likeOutcome := .ok (), genOutcome := .ok ("Nice post!", "llm"),
    postCommentOutcome := .ok () }

def c1Post : PostInfo := { id := 1, url := "https://linkedin.com/posts/a" }

def c1User : UserInfo := { id := 4, org_id := 2 }

theorem C1_witness :
    execute_engagement_inner 7 c1Inputs c1Post c1User (some c1Dup) = ⟨some c1Dup, []⟩ :=
  (C1_pending_guard 7 c1Inputs c1Post c1User c1Dup).1 (by decide)

/-- C2: the claim (and §4.3 step 7 of the spec, and the module docstring of
`engagement_tasks.py`) says an adapter network timeout is re-raised out of
`execute_engagement` so Celery's own retry fires.  The code instead catches
*every* adapter exception — `httpx.TimeoutException` included — in
`_execute_engagement`'s blanket `except Exception`, records the action as
FAILED with `error_message = str(e)`, and returns normally, so the Celery task
ends in a completed run and the outer
`except (httpx.TimeoutException, httpx.ConnectError, SoftTimeLimitExceeded)`
clause never sees adapter exceptions.  This theorem evaluates the embedded
code at such a failing input. -/
def c2Pending : EngagementAction :=
  { id := 10, post_id := 5, user_id := 9, action_type := .like, status := .pending }

def c2Inputs : ExecInputs :=
  { likeOutcome := .error ⟨.timeout, "Request timed out"⟩,
    genOutcome := .ok ("", ""), postCommentOutcome := .ok () }

def c2Post : PostInfo := { id := 5, url := "https://linkedin.com/posts/b" }

def c2User : UserInfo := { id := 9, org_id := 2 }

/-- The row the code actually leaves behind at the C2 failing input. -/
def c2Failed : EngagementAction :=
  { c2Pending with status := .failed, attempted_at := some 5000,
                   error_message := some "Request timed out" }

/-- The audit row written on that run. -/
def c2Audit : AuditEntry :=
  { org_id := 2, user_id := 9, action := "like_failed", target_type := "post",
    target_id := 5, meta_post_url := "https://linkedin.com/posts/b",
    meta_action_type := "like", meta_comment_text := none }

theorem C2_adapter_timeout_recorded_not_reraised :
    execute_engagement true 5000 c2Inputs c2Post c2User (some c2Pending) =
      .completedRun ⟨some c2Failed, [c2Audit]⟩ := by
  decide

/-- C8 counterexample: the claim says *every* executor invocation on an
existing action writes exactly one audit row, "including the
duplicate-delivery no-op branch" — but `_execute_engagement` returns from the
status-≠-PENDING branch before reaching the audit write, so a re-delivered
IN_PROGRESS action produces zero audit rows. -/
def c8Dup : EngagementAction :=
  { id := 6, post_id := 2, user_id := 3, action_type := .like, status := .in_progress,
    attempted_at := some 100 }

def c8Inputs : ExecInputs :=
  { likeOutcome := .ok (), genOutcome := .ok ("", ""), postCommentOutcome := .ok () }

def c8Post : PostInfo := { id := 2, url := "https://linkedin.com/posts/c" }

def c8User : UserInfo := { id := 3, org_id := 1 }

theorem C8_counterexample :
    (execute_engagement_inner 5 c8Inputs c8Post c8User (some c8Dup)).audits.length ≠ 1 := by
  decide

/-- C8 as amended: an executor invocation on an existing action whose status
is PENDING at the re-load writes exactly one audit row — on the success and
failure branches alike — recording org, user, `f"{kind}_{resulting status}"`,
the target post and the comment text if any; the duplicate-delivery no-op
branch (status ≠ PENDING) writes none. -/
theorem C8_audit_on_executed_branches (now : Int) (inputs : ExecInputs)
    (post : PostInfo) (user : UserInfo) (a : EngagementAction) :
    (a.status = .pending →
      ∃ a', (execute_engagement_inner now inputs post user (some a)).action = some a' ∧
        (execute_engagement_inner now inputs post user (some a)).audits
          = [mkAudit user post a']) ∧
    (a.status ≠ .pending →
      (execute_engagement_inner now inputs post user (some a)).audits = []) := by
  constructor
  · intro h
    refine ⟨dispatchAction now inputs
      { a with status := ActionStatus.in_progress, attempted_at := some now }, ?_, ?_⟩
    · simp [execute_engagement_inner, h]
    · simp [execute_engagement_inner, h]
  · intro h
    simp [execute_engagement_inner, h]

/-- C8 witness: an executed (PENDING) action yields exactly one audit row. -/
def c8wPending : EngagementAction :=
  { id := 7, post_id := 2, user_id := 3, action_type := .like, status := .pending }

theorem C8_witness :
    (execute_engagement_inner 5 c8Inputs c8Post c8User (some c8wPending)).audits.length = 1 := by
  obtain ⟨a', -, haud⟩ :=
    (C8_audit_on_executed_branches 5 c8Inputs c8Post c8User c8wPending).1 rfl
  rw [haud]
  rfl

/-! ## Claim C5 — quiet hours -/

theorem parseHM_2200 : parseHM "22:00" = some (22, 0) := by decide

theorem parseHM_0700 : parseHM "07:00" = some (7, 0) := by decide

/-- C5 counterexample: the claim (and §8 of the spec) asserts an offset of
12600 s at 23:30 for the 22:00–07:00 window, but 23:30 → 07:00 is 7.5 h and
`_quiet_hours_offset` returns 27000. -/
theorem C5_counterexample : quiet_hours_offset 23 30 "22:00" "07:00" ≠ 12600 := by
  decide

/-- C5 as amended: for every configured `[start, end)` window — wrapping
midnight (`start > end`, membership `current ≥ start ∨ current < end`) or not
(`start ≤ end`, membership `start ≤ current < end`) — and any valid clock
time, `_quiet_hours_offset` returns 0 outside the window and otherwise the
number of seconds until the window ends (`((end − current) mod 24h)` in
seconds); in particular, for 22:00–07:00: 27000 — not 12600 — at 23:30, 3600
at 06:00 and 0 at 12:00. -/
theorem C5_quiet_hours_amended (h m sh sm eh em : Nat) (start_str end_str : String)
    (hh : h < 24) (hm : m < 60)
    (hps : parseHM start_str = some (sh, sm)) (hpe : parseHM end_str = some (eh, em))
    (hsh : sh < 24) (hsm : sm < 60) (heh : eh < 24) (hem : em < 60) :
    (quiet_hours_offset h m start_str end_str =
      if (if sh * 60 + sm ≤ eh * 60 + em
          then sh * 60 + sm ≤ h * 60 + m ∧ h * 60 + m < eh * 60 + em
          else sh * 60 + sm ≤ h * 60 + m ∨ h * 60 + m < eh * 60 + em)
      then ((1440 + (eh * 60 + em) - (h * 60 + m)) % 1440) * 60
      else 0) ∧
    quiet_hours_offset 23 30 "22:00" "07:00" = 27000 ∧
    quiet_hours_offset 6 0 "22:00" "07:00" = 3600 ∧
    quiet_hours_offset 12 0 "22:00" "07:00" = 0 := by
  refine ⟨?_, by decide, by decide, by decide⟩
  have hq : quiet_hours_offset h m start_str end_str
      = quietCore (h * 60 + m) (sh * 60 + sm) (eh * 60 + em) := by
    unfold quiet_hours_offset
    rw [hps, hpe]
  rw [hq]
  have hcur : h * 60 + m < 1440 := by omega
  simp only [quietCore]
  split_ifs <;> omega

theorem C5_witness :
    (quiet_hours_offset 23 30 "22:00" "07:00" =
      if (if 22 * 60 + 0 ≤ 7 * 60 + 0
          then 22 * 60 + 0 ≤ 23 * 60 + 30 ∧ 23 * 60 + 30 < 7 * 60 + 0
          else 22 * 60 + 0 ≤ 23 * 60 + 30 ∨ 23 * 60 + 30 < 7 * 60 + 0)
      then ((1440 + (7 * 60 + 0) - (23 * 60 + 30)) % 1440) * 60
      else 0) ∧
    quiet_hours_offset 23 30 "22:00" "07:00" = 27000 ∧
    quiet_hours_offset 6 0 "22:00" "07:00" = 3600 ∧
    quiet_hours_offset 12 0 "22:00" "07:00" = 0 :=
  C5_quiet_hours_amended 23 30 22 0 7 0 "22:00" "07:00" (by decide) (by decide)
    (by decide) (by decide) (by decide) (by decide) (by decide) (by decide)

/-! ## Claim C7 — lock release -/

/-- C7: `UserLock.release` deletes the stored key if and only if the stored
value still equals the releasing owner's token.  If the lock expired and was
re-acquired by a different owner (a different token now stored), release
returns false and leaves the store — hence the new owner's lock — untouched;
release of a never-acquired lock returns false without consulting the store. -/
theorem C7_release_only_own_token (l : UserLock) (st : List (String × String)) :
    (l.acquired = true →
      (storeGet st l.lock_key = some l.lock_id →
        l.release st = ({ l with acquired := false }, storeDel st l.lock_key, true)) ∧
      (storeGet st l.lock_key ≠ some l.lock_id →
        l.release st = (l, st, false))) ∧
    (l.acquired = false → l.release st = (l, st, false)) := by
  constructor
  · intro hacq
    constructor
    · intro hget
      simp [UserLock.release, hacq, hget]
    · intro hget
      cases hv : storeGet st l.lock_key with
      | none => simp [UserLock.release, hacq, hv]
      | some v =>
        have hne : (v == l.lock_id) = false := by
          rw [beq_eq_false_iff_ne]
          intro he
          exact hget (by rw [hv, he])
        simp [UserLock.release, hacq, hv, hne]
  · intro hacq
    simp [UserLock.release, hacq]

/-- C7 witness: owner "tokA"'s lock expired and "tokB" re-acquired the key;
"tokA"'s release is a refused no-op. -/
def c7Key : String := "autoengage:user_lock:engagement_linkedin:u1"

def c7Lock : UserLock := { lock_key := c7Key, lock_id := "tokA", acquired := true }

def c7Store : List (String × String) := [(c7Key, "tokB")]

theorem C7_witness : c7Lock.release c7Store = (c7Lock, c7Store, false) :=
  ((C7_release_only_own_token c7Lock c7Store).1 (by decide)).2 (by decide)

/-! ## Claims C4, C10 — the scheduler -/

theorem mem_ite_singleton {α : Type} {c : Prop} [Decidable c] {x p : α}
    (hp : p ∈ (if c then [x] else [])) : c ∧ p = x := by
  by_cases hc : c
  · rw [if_pos hc] at hp
    exact ⟨hc, List.mem_singleton.mp hp⟩
  · rw [if_neg hc] at hp
    cases hp

/-- `r` is not a record of kind `k` for user `u`. -/
def notKindFor (u : Nat) (k : ActionType) (r : CreatedRecord) : Bool :=
  !(decide (r.user_id = u) && decide (r.action_type = k))

/-- `notKindFor` on the record of an enqueued `(record, countdown)` pair. -/
def notKindForPair (u : Nat) (k : ActionType) (p : CreatedRecord × Nat) : Bool :=
  notKindFor u k p.1

theorem scheduleOne_fst (env : SchedEnv) (now : NowClock) (post_id i : Nat)
    (sub : Subscription) :
    (scheduleOne env now post_id i sub).1
      = (scheduleOne env now post_id i sub).2.map Prod.fst := by
  simp only [scheduleOne]
  split_ifs <;> simp

theorem scheduleFrom_fst (env : SchedEnv) (now : NowClock) (post_id : Nat) :
    ∀ i subs, (scheduleFrom env now post_id i subs).1
      = (scheduleFrom env now post_id i subs).2.map Prod.fst := by
  intro i subs
  induction subs generalizing i with
  | nil => rfl
  | cons s rest ih =>
    simp only [scheduleFrom]
    rw [List.map_append, scheduleOne_fst, ih]

theorem scheduleOne_cap (env : SchedEnv) (now : NowClock) (post_id i : Nat)
    (sub : Subscription) (u : Nat) (k : ActionType)
    (hcap : dailyCap env u k ≤ todayCount env u k) :
    ((scheduleOne env now post_id i sub).2.all (notKindForPair u k)) = true := by
  rw [List.all_eq_true]
  intro p hp
  simp only [scheduleOne] at hp
  rcases List.mem_append.mp hp with hp | hp
  · obtain ⟨hc, rfl⟩ := mem_ite_singleton hp
    rw [Bool.and_eq_true, decide_eq_true_eq] at hc
    simp only [notKindForPair, notKindFor, Bool.not_eq_true', Bool.and_eq_false_iff,
      decide_eq_false_iff_not, decide_eq_true_eq]
    by_cases hu : sub.user_id = u
    · right
      intro hk
      rw [← hk] at hcap
      rw [hu] at hc
      simp only [dailyCap, todayCount] at hcap
      omega
    · left
      exact hu
  · obtain ⟨hc, rfl⟩ := mem_ite_singleton hp
    rw [Bool.and_eq_true, decide_eq_true_eq] at hc
    simp only [notKindForPair, notKindFor, Bool.not_eq_true', Bool.and_eq_false_iff,
      decide_eq_false_iff_not, decide_eq_true_eq]
    by_cases hu : sub.user_id = u
    · right
      intro hk
      rw [← hk] at hcap
      rw [hu] at hc
      simp only [dailyCap, todayCount] at hcap
      omega
    · left
      exact hu

theorem scheduleFrom_cap (env : SchedEnv) (now : NowClock) (post_id u : Nat)
    (k : ActionType) (hcap : dailyCap env u k ≤ todayCount env u k) :
    ∀ i subs, ((scheduleFrom env now post_id i subs).2.all (notKindForPair u k)) = true := by
  intro i subs
  induction subs generalizing i with
  | nil => rfl
  | cons s rest ih =>
    simp only [scheduleFrom]
    rw [List.all_append, scheduleOne_cap env now post_id i s u k hcap, ih (i + 1)]
    rfl

/-- C4: a user at or above the daily cap for a kind (likes: 50 safe / 150
aggro; comments: 20 safe / 60 aggro, counts taken over today's rows of that
kind regardless of status) gets zero records of that kind created by
`_schedule_engagements` and nothing of that kind enqueued, whatever the
subscriber list, clock or random draws. -/
theorem C4_caps_gate_creation (env : SchedEnv) (now : NowClock) (post_id : Nat)
    (subs : List Subscription) (u : Nat) (k : ActionType)
    (hcap : dailyCap env u k ≤ todayCount env u k) :
    ((schedule_engagements env now post_id subs).1.all (notKindFor u k)) = true ∧
    ((schedule_engagements env now post_id subs).2.all (notKindForPair u k)) = true := by
  have h2 := scheduleFrom_cap env now post_id u k hcap 0 subs
  refine ⟨?_, h2⟩
  unfold schedule_engagements
  rw [scheduleFrom_fst, List.all_eq_true]
  intro r hr
  rcases List.mem_map.mp hr with ⟨p, hpmem, rfl⟩
  exact List.all_eq_true.mp h2 p hpmem

/-- C4 witness: user 7 sits exactly at the safe like cap (50) and subscribes
with auto-like on; no like record is created or enqueued. -/
def c4Env : SchedEnv :=
  { settingsOf := fun _ => none, todayLikes := fun _ => 50, todayComments := fun _ => 0,
    likeDraw := fun _ => 3, commentDraw := fun _ => 100 }

def c4Now : NowClock := { hour := 12, minute := 0, weekday := 2 }

def c4Subs : List Subscription := [{ user_id := 7, auto_like := true, auto_comment := true }]

theorem C4_witness :
    ((schedule_engagements c4Env c4Now 1 c4Subs).1.all (notKindFor 7 ActionType.like)) = true ∧
    ((schedule_engagements c4Env c4Now 1 c4Subs).2.all (notKindForPair 7 ActionType.like)) = true :=
  C4_caps_gate_creation c4Env c4Now 1 c4Subs 7 ActionType.like (by decide)

/-- Every delay the scheduler hands out for user `u` has `u`'s quiet-hours
offset added to it (`countdown = stagger + quiet_offset`, so
`quiet_offset ≤ countdown`). -/
def offsetAddedFor (env : SchedEnv) (now : NowClock) (u : Nat)
    (p : CreatedRecord × Nat) : Bool :=
  !(decide (p.1.user_id = u)) || decide (quietOffsetFor env now u ≤ p.2)

theorem scheduleOne_offset (env : SchedEnv) (now : NowClock) (post_id i : Nat)
    (sub : Subscription) (u : Nat) :
    ((scheduleOne env now post_id i sub).2.all (offsetAddedFor env now u)) = true := by
  rw [List.all_eq_true]
  intro p hp
  simp only [scheduleOne] at hp
  rcases List.mem_append.mp hp with hp | hp <;>
  · obtain ⟨-, rfl⟩ := mem_ite_singleton hp
    unfold offsetAddedFor
    by_cases hu : sub.user_id = u
    · rw [hu]
      simp [Nat.le_add_left]
    · simp [hu]

theorem scheduleFrom_offset (env : SchedEnv) (now : NowClock) (post_id u : Nat) :
    ∀ i subs, ((scheduleFrom env now post_id i subs).2.all (offsetAddedFor env now u)) = true := by
  intro i subs
  induction subs generalizing i with
  | nil => rfl
  | cons s rest ih =>
    simp only [scheduleFrom]
    rw [List.all_append, scheduleOne_offset env now post_id i s u, ih (i + 1)]
    rfl

/-- C10 counterexample: the claim says any user whose automation settings lack
the `quiet_hours_enabled` key is treated as having quiet hours enabled *with
the default 22:00–07:00 window*, so that a pass inside that window adds a
positive offset to every delay.  But the window keys default independently:
user 7's settings lack `quiet_hours_enabled` yet carry a custom 12:00–12:01
window, so at 23:00 — inside the default window — the offset is 0 and the one
delay computed for user 7 (the bare stagger 3) carries no quiet-hours
deferral. -/
def c10Settings : AutomationSettings :=
  { quiet_hours_start := some "12:00", quiet_hours_end := some "12:01" }

def c10Env : SchedEnv :=
  { settingsOf := fun _ => some c10Settings, todayLikes := fun _ => 0,
    todayComments := fun _ => 0, likeDraw := fun _ => 3, commentDraw := fun _ => 100 }

def c10Now : NowClock := { hour := 23, minute := 0, weekday := 2 }

def c10Subs : List Subscription := [{ user_id := 7, auto_like := true, auto_comment := false }]

theorem C10_counterexample :
    c10Env.settingsOf 7 = some c10Settings ∧
    c10Settings.quiet_hours_enabled = none ∧
    1320 ≤ c10Now.hour * 60 + c10Now.minute ∧
    (schedule_engagements c10Env c10Now 1 c10Subs).2
      = [({ post_id := 1, user_id := 7, action_type := .like }, 3)] ∧
    quietOffsetFor c10Env c10Now 7 = 0 := by
  decide

/-- C10 as amended: a subscribed user whose automation settings are absent —
or present but lacking the `quiet_hours_enabled` key *and* both window keys —
is treated as having quiet hours enabled with the default 22:00–07:00 window;
a scheduling pass whose current time falls inside that window computes a
positive quiet-hours offset for the user and adds it to every delay it
enqueues for them (`quiet_offset ≤ countdown`). -/
theorem C10_default_quiet_hours (env : SchedEnv) (now : NowClock) (post_id : Nat)
    (subs : List Subscription) (u : Nat)
    (hs : env.settingsOf u = none ∨
      ∃ s, env.settingsOf u = some s ∧ s.quiet_hours_enabled = none ∧
        s.quiet_hours_start = none ∧ s.quiet_hours_end = none)
    (hin : 1320 ≤ now.hour * 60 + now.minute ∨ now.hour * 60 + now.minute < 420) :
    quietOffsetFor env now u = quiet_hours_offset now.hour now.minute "22:00" "07:00" ∧
    0 < quietOffsetFor env now u ∧
    ((schedule_engagements env now post_id subs).2.all (offsetAddedFor env now u)) = true := by
  have hdef : quietOffsetFor env now u
      = quiet_hours_offset now.hour now.minute "22:00" "07:00" := by
    unfold quietOffsetFor
    rcases hs with hs | ⟨s, hs, he, hst, hen⟩
    · rw [hs]
      rfl
    · rw [hs]
      simp [he, hst, hen]
  refine ⟨hdef, ?_, scheduleFrom_offset env now post_id u 0 subs⟩
  rw [hdef]
  have hq : quiet_hours_offset now.hour now.minute "22:00" "07:00"
      = quietCore (now.hour * 60 + now.minute) 1320 420 := by
    unfold quiet_hours_offset
    rw [parseHM_2200, parseHM_0700]
  rw [hq]
  simp only [quietCore]
  split_ifs <;> omega

/-- C10 witness: a user with no stored settings, scheduled at 23:30 on a
weekday, gets the default-window offset (27000 s) folded into their delay. -/
def c10wEnv : SchedEnv :=
  { settingsOf := fun _ => none, todayLikes := fun _ => 0, todayComments := fun _ => 0,
    likeDraw := fun _ => 3, commentDraw := fun _ => 100 }

def c10wNow : NowClock := { hour := 23, minute := 30, weekday := 2 }

def c10wSubs : List Subscription := [{ user_id := 7, auto_like := true, auto_comment := false }]

theorem C10_witness :
    quietOffsetFor c10wEnv c10wNow 7
      = quiet_hours_offset c10wNow.hour c10wNow.minute "22:00" "07:00" ∧
    0 < quietOffsetFor c10wEnv c10wNow 7 ∧
    ((schedule_engagements c10wEnv c10wNow 1 c10wSubs).2.all
      (offsetAddedFor c10wEnv c10wNow 7)) = true :=
  C10_default_quiet_hours c10wEnv c10wNow 1 c10wSubs 7 (Or.inl (by decide))
    (Or.inl (by decide))

end B2BPulse
